import Mathlib

/-!
Verification development for the Coupon-Backend service.

The definitions below are a shallow embedding of the TypeScript source:
duration parsing and the coupon routes (routes/couponRoutes.ts), the OTP
utilities (utils/otpUtils.ts), the auth controller (authController.ts),
the verification middleware (middlewares/authMiddleware.ts), and the user
profile model/controller (UserProfileModel.ts, userProfileController.ts).
Timestamps are modelled as naturals counting milliseconds.
-/

namespace CouponBackend

/-! ### Duration parsing (`calculateExpirationDate`, couponRoutes.ts)

The source matches the duration string against the regex
`(\d+)hrs?\s*(\d+)min?|(\d+)hrs?|(\d+)min?` with the case-insensitive
flag, searching at every position left to right and trying the three
alternatives in order at each position.  For this particular pattern,
greedy maximal-munch parsing is equivalent to backtracking search: no
element that follows a greedy piece can consume a character the greedy
piece could give back (`hr`/`mi` never start with a digit, whitespace is
not a digit, and `s`/`n` are not whitespace or digits). -/

def isWsChar (c : Char) : Bool :=
  c = ' ' || c = '\t' || c = '\n' || c = '\r' || c = '\x0b' || c = '\x0c'

/-- Split a maximal run of ASCII digits (the regex `\d+`) off the front. -/
def splitDigits : List Char → List Char × List Char
  | [] => ([], [])
  | c :: cs =>
    if c.isDigit then
      let (d, r) := splitDigits cs
      (c :: d, r)
    else ([], c :: cs)

/-- Decimal value of a digit run, as `parseInt` computes it. -/
def digitsVal (ds : List Char) : Nat :=
  ds.foldl (fun a c => a * 10 + (c.toNat - 48)) 0

/-- Parse `\d+`: at least one digit, maximal munch. -/
def parseNum (cs : List Char) : Option (Nat × List Char) :=
  let (d, r) := splitDigits cs
  if d.isEmpty then none else some (digitsVal d, r)

/-- Match a lowercase literal case-insensitively (the `/i` flag). -/
def matchCI : List Char → List Char → Option (List Char)
  | [], cs => some cs
  | _ :: _, [] => none
  | l :: ls, c :: cs => if c.toLower = l then matchCI ls cs else none

/-- Consume one optional character, case-insensitively (`s?`, `n?`). -/
def dropOptCI (l : Char) (cs : List Char) : List Char :=
  match cs with
  | [] => []
  | c :: rest => if c.toLower = l then rest else cs

/-- Consume `\s*`. -/
def dropWs (cs : List Char) : List Char :=
  match cs with
  | [] => []
  | c :: rest => if isWsChar c then dropWs rest else c :: rest

/-- Which alternative of the duration regex matched, with its numeric
capture groups. -/
inductive DurMatch where
  | hm (h m : Nat)
  | hOnly (h : Nat)
  | mOnly (m : Nat)
deriving DecidableEq, Repr

/-- Alternative 1: `(\d+)hrs?\s*(\d+)min?`. -/
def tryAlt1 (cs : List Char) : Option DurMatch := do
  let (h, r1) ← parseNum cs
  let r2 ← matchCI ['h', 'r'] r1
  let r3 := dropOptCI 's' r2
  let r4 := dropWs r3
  let (m, r5) ← parseNum r4
  let _ ← matchCI ['m', 'i'] r5
  pure (DurMatch.hm h m)

/-- Alternative 2: `(\d+)hrs?`. -/
def tryAlt2 (cs : List Char) : Option DurMatch := do
  let (h, r1) ← parseNum cs
  let _ ← matchCI ['h', 'r'] r1
  pure (DurMatch.hOnly h)

/-- Alternative 3: `(\d+)min?`. -/
def tryAlt3 (cs : List Char) : Option DurMatch := do
  let (m, r1) ← parseNum cs
  let _ ← matchCI ['m', 'i'] r1
  pure (DurMatch.mOnly m)

/-- Try the three alternatives, in order, at one start position. -/
def tryAt (cs : List Char) : Option DurMatch :=
  match tryAlt1 cs with
  | some r => some r
  | none =>
    match tryAlt2 cs with
    | some r => some r
    | none => tryAlt3 cs

/-- Leftmost match of the duration regex: scan start positions left to
right (`String.prototype.match` with a non-global regex). -/
def firstMatch : List Char → Option DurMatch
  | [] => none
  | c :: cs =>
    match tryAt (c :: cs) with
    | some r => some r
    | none => firstMatch cs

/-- `duration.match(/.../i)` on the whole string. -/
def durationMatch (s : String) : Option DurMatch :=
  firstMatch s.toList

/-- `totalMinutes` as computed from the match groups in
`calculateExpirationDate`. -/
def totalMinutes (s : String) : Nat :=
  match durationMatch s with
  | some (DurMatch.hm h m) => h * 60 + m
  | some (DurMatch.hOnly h) => h * 60
  | some (DurMatch.mOnly m) => m
  | none => 0

/-- `calculateExpirationDate`: `now.getTime() + totalMinutes * 60000`
(milliseconds). -/
def calculateExpirationDate (duration : String) (now : Nat) : Nat :=
  now + totalMinutes duration * 60000

/-! ### OTP ledger and verification state (`utils/otpUtils.ts`)

The ledger is the `otp_codes` table, modelled as a list of rows; the
credential store is the `users` table. -/

/-- A row of the `otp_codes` table. -/
structure OtpRow where
  user_id : Nat
  otp : String
  type : String
  expires_at : Nat
deriving DecidableEq, Repr

/-- A row of the `users` table. -/
structure UserRow where
  id : Nat
  email : String
  phone : String
  password : String
  is_verified : Bool
deriving DecidableEq, Repr

/-- `WHERE user_id = $1 AND type = $2` — the delete predicate used by both
`storeOTP` and `verifyOTP`. -/
def pairMatch (u : Nat) (t : String) (r : OtpRow) : Bool :=
  r.user_id == u && r.type == t

/-- `storeOTP`: delete every row for `(userId, type)`, then insert one new
row expiring `otpExpiryMinutes` minutes from now. -/
def storeOTP (L : List OtpRow) (userId : Nat) (otp : String) (t : String)
    (now otpExpiryMinutes : Nat) : List OtpRow :=
  (L.filter fun r => ! pairMatch userId t r) ++
    [⟨userId, otp, t, now + otpExpiryMinutes * 60000⟩]

/-- The `SELECT` predicate of `verifyOTP`:
`user_id = $1 AND otp = $2 AND type = $3 AND expires_at > NOW()`. -/
def rowLive (u : Nat) (c t : String) (now : Nat) (r : OtpRow) : Bool :=
  r.user_id == u && r.otp == c && r.type == t && decide (now < r.expires_at)

/-- Combined state of `users` and `otp_codes`. -/
structure AuthState where
  users : List UserRow
  otps : List OtpRow
deriving DecidableEq, Repr

/-- `verifyOTP`: if no live row matches, return false and leave the state
alone; otherwise delete every row for `(userId, type)`, set the user
verified, and return true. -/
def verifyOTP (st : AuthState) (userId : Nat) (otp : String) (t : String)
    (now : Nat) : Bool × AuthState :=
  if (st.otps.filter (rowLive userId otp t now)).isEmpty then (false, st)
  else
    (true,
      { users := st.users.map fun u =>
          if u.id == userId then { u with is_verified := true } else u,
        otps := st.otps.filter fun r => ! pairMatch userId t r })

/-! ### Coupon store and routes (`routes/couponRoutes.ts`) -/

/-- A row of the `coupons` table (with the image and expiration columns
of the `CouponWithImage` interface). -/
structure Coupon where
  brand_name : String
  coupon_id : String
  bogo : Option String
  discount : Option String
  audience : String
  duration : String
  image_url : Option String
  image_public_id : Option String
  expires_at : Nat
  is_expired : Bool
deriving DecidableEq, Repr

/-- The body fields of a coupon update request; `none` is an absent
(undefined) field, `some ""` an explicitly empty one. -/
structure UpdateFields where
  brandName : Option String
  bogo : Option String
  discount : Option String
  audience : Option String
  duration : Option String
deriving DecidableEq, Repr

/-- The falsy-coalescing `newValue || existing` applied to a required
column. -/
def orFalsy (x : Option String) (old : String) : String :=
  match x with
  | some s => if s = "" then old else s
  | none => old

/-- The falsy-coalescing `newValue || existing` applied to a nullable
column. -/
def orFalsyOpt (x : Option String) (old : Option String) : Option String :=
  match x with
  | some s => if s = "" then old else some s
  | none => old

/-- The row written by the `PUT /:id` coupon handler once the existing
coupon has been loaded.  `file` is the optional uploaded image as a
`(path, filename)` pair.  `expires_at` and `is_expired` are recomputed
only when a truthy duration differing from the stored one is supplied. -/
def updateCoupon (existing : Coupon) (u : UpdateFields)
    (file : Option (String × String)) (now : Nat) : Coupon :=
  let imageUrl := match file with
    | some f => some f.1
    | none => existing.image_url
  let imagePublicId := match file with
    | some f => some f.2
    | none => existing.image_public_id
  let ei : Nat × Bool :=
    match u.duration with
    | some d =>
      if d ≠ "" ∧ d ≠ existing.duration then
        (calculateExpirationDate d now, false)
      else (existing.expires_at, existing.is_expired)
    | none => (existing.expires_at, existing.is_expired)
  { brand_name := orFalsy u.brandName existing.brand_name
    coupon_id := existing.coupon_id
    bogo := orFalsyOpt u.bogo existing.bogo
    discount := orFalsyOpt u.discount existing.discount
    audience := orFalsy u.audience existing.audience
    duration := orFalsy u.duration existing.duration
    image_url := imageUrl
    image_public_id := imagePublicId
    expires_at := ei.1
    is_expired := ei.2 }

/-- External side effects issued by the coupon delete handler, in order. -/
inductive Effect where
  | storeDelete (couponId : String)
  | assetDelete (publicId : String)
deriving DecidableEq, Repr

/-- The `DELETE /:id` coupon handler: run
`DELETE FROM coupons WHERE coupon_id = $1 RETURNING *`; on no row answer
404; otherwise, if the deleted row carried an `image_public_id`, call
`deleteCloudinaryImage` (which swallows its own failures, recorded here
by the `assetDeleteFails` flag having no influence).  Returns the HTTP
status, the remaining store, and the ordered effect trace. -/
def deleteCouponRoute (store : List Coupon) (cid : String)
    (_assetDeleteFails : Bool) : Nat × List Coupon × List Effect :=
  match store.find? (fun c => c.coupon_id == cid) with
  | none => (404, store, [])
  | some c =>
    let store2 := store.filter fun x => ! (x.coupon_id == cid)
    match c.image_public_id with
    | some pid => (200, store2, [Effect.storeDelete cid, Effect.assetDelete pid])
    | none => (200, store2, [Effect.storeDelete cid])

/-! ### Login (`authController.ts`) and session guard
(`middlewares/authMiddleware.ts`) -/

/-- `SELECT * FROM users WHERE email = $1` returning the first row. -/
def findByEmail (users : List UserRow) (email : String) : Option UserRow :=
  users.find? fun u => u.email == email

/-- `SELECT * FROM users WHERE id = $1` returning the first row. -/
def findById (users : List UserRow) (id : Nat) : Option UserRow :=
  users.find? fun u => u.id == id

/-- The JSON answer of the login handler: HTTP status, message, and the
issued token's time to live in days (none when no token is issued). -/
structure LoginResponse where
  status : Nat
  message : String
  tokenTtlDays : Option Nat
deriving DecidableEq, Repr

/-- The login handler after body validation, parameterized by the opaque
bcrypt comparison.  Lookup failure and password mismatch both answer 401
with the same message; a matched but unverified user answers 203; success
issues a token with a 30-day expiry when RememberMe is set, 1 day
otherwise. -/
def login (compare : String → String → Bool) (users : List UserRow)
    (email pw : String) (rememberMe : Bool) : LoginResponse :=
  match findByEmail users email with
  | none => ⟨401, "Invalid email or password", none⟩
  | some u =>
    if ! compare pw u.password then ⟨401, "Invalid email or password", none⟩
    else if ! u.is_verified then ⟨203, "Please verify your account", none⟩
    else ⟨200, "Login successful", some (if rememberMe then 30 else 1)⟩

/-- Flip `is_verified` of the user with the given id, as the successful
OTP verification path does. -/
def setVerified (users : List UserRow) (uid : Nat) : List UserRow :=
  users.map fun v => if v.id == uid then { v with is_verified := true } else v

/-- The identity the session guard injects into the request. -/
structure Identity where
  id : Nat
  email : String
deriving DecidableEq, Repr

/-- Outcome of the `checkVerification` middleware: either an HTTP
response (status, message, and the optional `status` field of the JSON
body) or fall-through to the next handler. -/
inductive GuardResult where
  | respond (httpStatus : Nat) (message : String) (bodyStatus : Option Nat)
  | next
deriving DecidableEq, Repr

/-- `checkVerification`: 401 without a request user, 404 when the user
row vanished, and for an unverified user HTTP status 403 with the body
carrying `status: 203`; otherwise fall through. -/
def checkVerification (reqUser : Option Identity) (users : List UserRow) :
    GuardResult :=
  match reqUser with
  | none => GuardResult.respond 401 "Unauthorized" none
  | some iu =>
    match findById users iu.id with
    | none => GuardResult.respond 404 "User not found" none
    | some u =>
      if ! u.is_verified then
        GuardResult.respond 403 "Account not verified" (some 203)
      else GuardResult.next

/-- HTTP status of a guard outcome, none on fall-through. -/
def guardHttpStatus : GuardResult → Option Nat
  | GuardResult.respond s _ _ => some s
  | GuardResult.next => none

/-! ### Profile store (`UserProfileModel.ts`, `userProfileController.ts`) -/

/-- A row of the `users_profiles` table. -/
structure ProfileRow where
  user_id : Nat
  email : String
  phone_number : String
  first_name : String
  middle_name : Option String
  last_name : String
  gender : String
  house_no : Int
  city_town_village : String
  district : String
  state : String
  country : String
  profile_picture_url : Option String
deriving DecidableEq, Repr

/-- The profile sub-object of the joined projection; every field is
nullable because the LEFT JOIN yields NULLs when no profile row exists. -/
structure ProfileProj where
  firstName : Option String
  middleName : Option String
  lastName : Option String
  gender : Option String
  houseNo : Option Int
  cityTownVillage : Option String
  district : Option String
  state : Option String
  country : Option String
  profilePictureUrl : Option String
deriving DecidableEq, Repr

/-- The all-NULL profile sub-object produced when the LEFT JOIN finds no
`users_profiles` row. -/
def emptyProfileProj : ProfileProj :=
  ⟨none, none, none, none, none, none, none, none, none, none⟩

/-- The object returned by `getCompleteUserProfile`. -/
structure CompleteProfile where
  id : Nat
  email : String
  phone : String
  isVerified : Bool
  profile : ProfileProj
deriving DecidableEq, Repr

/-- `SELECT * FROM users_profiles WHERE user_id = $1`. -/
def findProfileByUserId (profiles : List ProfileRow) (uid : Nat) :
    Option ProfileRow :=
  profiles.find? fun p => p.user_id == uid

/-- `getCompleteUserProfile`: LEFT JOIN of `users` with `users_profiles`
on `user_id`.  The query returns a row whenever the user exists; profile
columns are NULL when no profile row matches. -/
def getCompleteUserProfile (users : List UserRow)
    (profiles : List ProfileRow) (uid : Nat) : Option CompleteProfile :=
  match findById users uid with
  | none => none
  | some u =>
    let pj := match findProfileByUserId profiles uid with
      | none => emptyProfileProj
      | some p =>
        ⟨some p.first_name, p.middle_name, some p.last_name, some p.gender,
         some p.house_no, some p.city_town_village, some p.district,
         some p.state, some p.country, p.profile_picture_url⟩
    some ⟨u.id, u.email, u.phone, u.is_verified, pj⟩

/-- Outcome of `UserProfileController.getUserProfile`. -/
inductive GetProfileResult where
  | unauthorized
  | notFound
  | ok (p : CompleteProfile)
deriving DecidableEq, Repr

/-- `getUserProfile`: 401 without a request user, 404 when
`getCompleteUserProfile` yields nothing, otherwise 200 with the
projection. -/
def getUserProfile (reqUser : Option Identity) (users : List UserRow)
    (profiles : List ProfileRow) : GetProfileResult :=
  match reqUser with
  | none => GetProfileResult.unauthorized
  | some iu =>
    match getCompleteUserProfile users profiles iu.id with
    | none => GetProfileResult.notFound
    | some cp => GetProfileResult.ok cp

/-- HTTP status of a `getUserProfile` outcome. -/
def getProfileStatus : GetProfileResult → Nat
  | GetProfileResult.unauthorized => 401
  | GetProfileResult.notFound => 404
  | GetProfileResult.ok _ => 200

/-- `UserProfileModel.updateProfilePicture`: an unconditional UPDATE
matching on `user_id`; it returns true no matter how many rows matched. -/
def updateProfilePicture (profiles : List ProfileRow) (uid : Nat)
    (url : String) : Bool × List ProfileRow :=
  (true,
    profiles.map fun p =>
      if p.user_id == uid then { p with profile_picture_url := some url }
      else p)

/-- `UserProfileController.updateProfilePicture`: 401 without a request
user, 400 on a falsy imageUrl, 500 if the model reports failure, 200
otherwise.  Returns the HTTP status and the resulting profile store. -/
def updateProfilePictureRoute (reqUser : Option Identity)
    (profiles : List ProfileRow) (imageUrl : Option String) :
    Nat × List ProfileRow :=
  match reqUser with
  | none => (401, profiles)
  | some iu =>
    match imageUrl with
    | none => (400, profiles)
    | some url =>
      if url = "" then (400, profiles)
      else
        let r := updateProfilePicture profiles iu.id url
        if r.1 then (200, r.2) else (500, r.2)

/-! ### Concrete states used by counterexamples and witnesses -/

/-- Concrete coupon for the C2 counterexample: already expired, stored
duration "30min". -/
def c2Coupon : Coupon :=
  { brand_name := "BrandA", coupon_id := "CPN1", bogo := none,
    discount := none, audience := "all", duration := "30min",
    image_url := none, image_public_id := none,
    expires_at := 100, is_expired := true }

/-- Concrete update for the C2 counterexample: supplies the duration
"30min", equal to the stored one. -/
def c2Update : UpdateFields :=
  { brandName := none, bogo := none, discount := none, audience := none,
    duration := some "30min" }

/-- Concrete ledger for the C4 witness: one live email code for user 1. -/
def c4State : AuthState :=
  ⟨[⟨1, "a@b.c", "123", "hash", false⟩], [⟨1, "123456", "email", 100⟩]⟩

/-- Concrete credential store for the C5 and C6 witnesses: one stored,
unverified user whose password digest is "pw1". -/
def c5Users : List UserRow :=
  [⟨1, "u@x.y", "555", "pw1", false⟩]

/-- Concrete credential store for the C7 counterexample and witness: one
unverified user. -/
def c7Users : List UserRow :=
  [⟨1, "v@x.y", "777", "hash7", false⟩]

/-- Concrete credential store for the C8 counterexample and witness: one
verified user who has no profile row. -/
def c8Users : List UserRow :=
  [⟨1, "w@x.y", "888", "hash8", true⟩]

/-- Concrete store for the C9 counterexample and witness: one coupon
with an image asset. -/
def c9Store : List Coupon :=
  [{ brand_name := "BrandB", coupon_id := "CPN9", bogo := none,
     discount := none, audience := "all", duration := "1hrs",
     image_url := some "http://img", image_public_id := some "pid9",
     expires_at := 100, is_expired := false }]

/-- Concrete profile store for the C10 witness: one profile row, owned
by user 2 (so no row for the calling user 1). -/
def c10Profiles : List ProfileRow :=
  [⟨2, "o@x.y", "222", "Ada", none, "Someone", "Female", 5,
    "town", "district", "state", "country", none⟩]

end CouponBackend

namespace CouponBackend

/-- After removing every element satisfying `p`, no element satisfying a
stronger predicate `q` remains. -/
theorem filter_stronger_nil {α : Type} (p q : α → Bool) (L : List α)
    (h : ∀ a, q a = true → p a = true) :
    (L.filter fun a => ! p a).filter q = [] := by
  induction L with
  | nil => rfl
  | cons a l ih =>
    by_cases hp : p a = true
    · simp [List.filter_cons, hp, ih]
    · have hq : ¬ q a = true := fun hqa => hp (h a hqa)
      simp [List.filter_cons, hp, hq, ih]

end CouponBackend

namespace CouponBackend

/-- C1: a coupon created at time T with duration "2hrs 30min" expires at
T plus 150 minutes, with "45min" at T plus 45 minutes, and any duration
string the regex does not match anywhere expires at T itself (zero
additional minutes). -/
theorem spec_C1_duration_parsing (T : Nat) (d : String)
    (h : durationMatch d = none) :
    calculateExpirationDate "2hrs 30min" T = T + 150 * 60000 ∧
    calculateExpirationDate "45min" T = T + 45 * 60000 ∧
    calculateExpirationDate d T = T := by
  refine ⟨?_, ?_, ?_⟩
  · have h1 : totalMinutes "2hrs 30min" = 150 := by decide
    simp [calculateExpirationDate, h1]
  · have h2 : totalMinutes "45min" = 45 := by decide
    simp [calculateExpirationDate, h2]
  · simp [calculateExpirationDate, totalMinutes, h]

/-- Witness for C1 at T = 3 and the unmatched duration string "forever". -/
theorem spec_C1_duration_parsing_witness :
    calculateExpirationDate "2hrs 30min" 3 = 3 + 150 * 60000 ∧
    calculateExpirationDate "45min" 3 = 3 + 45 * 60000 ∧
    calculateExpirationDate "forever" 3 = 3 :=
  spec_C1_duration_parsing 3 "forever" (by decide)

/-- C3: after `storeOTP` completes, the rows of the ledger for the issued
`(user_id, type)` pair are exactly the one freshly inserted row — in
particular at most one row for that pair remains. -/
theorem spec_C3_otp_single_row (L : List OtpRow) (u : Nat) (o t : String)
    (now exp : Nat) :
    (storeOTP L u o t now exp).filter (pairMatch u t) =
      [⟨u, o, t, now + exp * 60000⟩] ∧
    ((storeOTP L u o t now exp).filter (pairMatch u t)).length ≤ 1 := by
  have hnil :
      ((L.filter fun r => ! pairMatch u t r).filter (pairMatch u t)) = [] :=
    filter_stronger_nil (pairMatch u t) (pairMatch u t) L (fun _ ha => ha)
  have heq : (storeOTP L u o t now exp).filter (pairMatch u t) =
      [⟨u, o, t, now + exp * 60000⟩] := by
    simp [storeOTP, List.filter_append, hnil, pairMatch]
  exact ⟨heq, by rw [heq]; simp⟩

/-- C4: if `verifyOTP` succeeds once, a second call for the same user,
code and purpose against the resulting state, with no issuance in
between, fails at every later time. -/
theorem spec_C4_otp_single_use (st : AuthState) (u : Nat) (c t : String)
    (now now2 : Nat) (h : (verifyOTP st u c t now).1 = true) :
    (verifyOTP (verifyOTP st u c t now).2 u c t now2).1 = false := by
  have hnil :
      ((st.otps.filter fun r => ! pairMatch u t r).filter
        (rowLive u c t now2)) = [] := by
    refine filter_stronger_nil (pairMatch u t) (rowLive u c t now2)
      st.otps (fun a ha => ?_)
    simp only [rowLive, Bool.and_eq_true] at ha
    simp only [pairMatch, Bool.and_eq_true]
    exact ⟨ha.1.1.1, ha.1.2⟩
  by_cases he : (st.otps.filter (rowLive u c t now)).isEmpty
  · exfalso
    simp [verifyOTP, he] at h
  · simp [verifyOTP, he, hnil]

/-- C2 counterexample: an update that supplies a duration equal to the
stored one leaves is_expired true and expires_at untouched, refuting the
claim that every update supplying a duration resets is_expired to false
and recomputes expires_at. -/
theorem spec_C2_counterexample :
    ¬ ((updateCoupon c2Coupon c2Update none 1000).is_expired = false ∧
       (updateCoupon c2Coupon c2Update none 1000).expires_at =
         calculateExpirationDate "30min" 1000) := by
  decide

/-- C2 amended: for every update call that supplies a non-empty duration
differing from the stored one, is_expired is reset to false and
expires_at is recomputed from the new duration, regardless of the prior
expired state. -/
theorem spec_C2_duration_rearm (e : Coupon) (u : UpdateFields)
    (f : Option (String × String)) (now : Nat) (d : String)
    (hd : u.duration = some d) (hne : d ≠ "") (hdiff : d ≠ e.duration) :
    (updateCoupon e u f now).is_expired = false ∧
    (updateCoupon e u f now).expires_at = calculateExpirationDate d now := by
  simp [updateCoupon, hd, hne, hdiff]

/-- Witness for the amended C2: re-arming the expired c2Coupon with the
different duration "45min". -/
theorem spec_C2_duration_rearm_witness :
    (updateCoupon c2Coupon
      { c2Update with duration := some "45min" } none 1000).is_expired
        = false ∧
    (updateCoupon c2Coupon
      { c2Update with duration := some "45min" } none 1000).expires_at
        = calculateExpirationDate "45min" 1000 :=
  spec_C2_duration_rearm c2Coupon
    { c2Update with duration := some "45min" } none 1000 "45min"
    rfl (by decide) (by decide)

/-- C9 counterexample: deleting CPN9 produces the effect trace
store-delete *then* asset-delete; there is no pair of positions placing
the asset-delete call at or before the store row deletion, refuting the
claimed ordering. -/
theorem spec_C9_counterexample :
    (deleteCouponRoute c9Store "CPN9" false).2.2 =
      [Effect.storeDelete "CPN9", Effect.assetDelete "pid9"] ∧
    ¬ (∃ i j : Fin (deleteCouponRoute c9Store "CPN9" false).2.2.length,
        (deleteCouponRoute c9Store "CPN9" false).2.2.get i =
          Effect.assetDelete "pid9" ∧
        (deleteCouponRoute c9Store "CPN9" false).2.2.get j =
          Effect.storeDelete "CPN9" ∧
        i.val ≤ j.val) := by
  decide

/-- C9 amended: for every delete of a coupon that has an image asset,
exactly one asset-delete call is issued, ordered immediately after the
store row deletion, and the outcome (status and remaining store) is the
same whether or not the asset-delete fails. -/
theorem spec_C9_delete_asset_call (store : List Coupon) (cid pid : String)
    (c : Coupon) (hfind : store.find? (fun x => x.coupon_id == cid) = some c)
    (hpid : c.image_public_id = some pid) :
    (∀ b : Bool,
      (deleteCouponRoute store cid b).2.2 =
        [Effect.storeDelete cid, Effect.assetDelete pid] ∧
      ((deleteCouponRoute store cid b).2.2.filter
        (fun e => e == Effect.assetDelete pid)).length = 1) ∧
    deleteCouponRoute store cid true = deleteCouponRoute store cid false := by
  refine ⟨fun b => ?_, ?_⟩
  · simp [deleteCouponRoute, hfind, hpid]
  · simp [deleteCouponRoute, hfind, hpid]

/-- Witness for the amended C9 on the concrete one-coupon store. -/
theorem spec_C9_delete_asset_call_witness :
    ((∀ b : Bool,
      (deleteCouponRoute c9Store "CPN9" b).2.2 =
        [Effect.storeDelete "CPN9", Effect.assetDelete "pid9"] ∧
      ((deleteCouponRoute c9Store "CPN9" b).2.2.filter
        (fun e => e == Effect.assetDelete "pid9")).length = 1) ∧
    deleteCouponRoute c9Store "CPN9" true =
      deleteCouponRoute c9Store "CPN9" false) :=
  spec_C9_delete_asset_call c9Store "CPN9" "pid9"
    (c9Store.get ⟨0, by decide⟩) (by decide) (by decide)

/-- Witness for C4: the first verification of "123456" succeeds and the
second fails. -/
theorem spec_C4_otp_single_use_witness :
    (verifyOTP c4State 1 "123456" "email" 0).1 = true ∧
    (verifyOTP (verifyOTP c4State 1 "123456" "email" 0).2
      1 "123456" "email" 0).1 = false :=
  ⟨by decide, spec_C4_otp_single_use c4State 1 "123456" "email" 0 0 (by decide)⟩

/-- `find?` commutes with mapping a function that the predicate cannot
see through. -/
theorem find?_map_comm {α : Type} (f : α → α) (p : α → Bool)
    (hp : ∀ a, p (f a) = p a) (L : List α) :
    (L.map f).find? p = (L.find? p).map f := by
  induction L with
  | nil => rfl
  | cons a l ih =>
    simp only [List.map_cons]
    cases ha : p a
    · rw [List.find?_cons_of_neg _ (by simp [hp, ha]),
        List.find?_cons_of_neg _ (by simp [ha]), ih]
    · rw [List.find?_cons_of_pos _ (by rw [hp]; exact ha),
        List.find?_cons_of_pos _ ha]
      rfl

/-- `setVerified` leaves emails alone, so an email lookup after it finds
the verified copy of whatever it found before. -/
theorem findByEmail_setVerified (users : List UserRow) (uid : Nat)
    (email : String) :
    findByEmail (setVerified users uid) email =
      (findByEmail users email).map
        (fun v => if v.id == uid then { v with is_verified := true }
                  else v) := by
  unfold findByEmail setVerified
  exact find?_map_comm _ _ (fun a => by by_cases h : a.id == uid <;> simp [h])
    users

/-- C5: a login whose credentials match a stored but unverified user
answers 203 with no token issued — a status distinct from 401 — and the
same login succeeds with a token once that user is verified. -/
theorem spec_C5_login_not_verified (compare : String → String → Bool)
    (users : List UserRow) (email pw : String) (rm : Bool) (u : UserRow)
    (h1 : findByEmail users email = some u)
    (h2 : compare pw u.password = true) (h3 : u.is_verified = false) :
    (login compare users email pw rm).status = 203 ∧
    (login compare users email pw rm).tokenTtlDays = none ∧
    (login compare users email pw rm).status ≠ 401 ∧
    (login compare (setVerified users u.id) email pw rm).status = 200 ∧
    (login compare (setVerified users u.id) email pw rm).tokenTtlDays
      ≠ none := by
  have hf : findByEmail (setVerified users u.id) email =
      some { u with is_verified := true } := by
    rw [findByEmail_setVerified, h1]
    simp
  refine ⟨?_, ?_, ?_, ?_, ?_⟩ <;>
    simp [login, h1, h2, h3, hf]

/-- Witness for C5 on the concrete one-user store, comparing digests by
string equality. -/
theorem spec_C5_login_not_verified_witness :
    (login (fun a b => a == b) c5Users "u@x.y" "pw1" false).status = 203 ∧
    (login (fun a b => a == b) c5Users "u@x.y" "pw1" false).tokenTtlDays
      = none ∧
    (login (fun a b => a == b) c5Users "u@x.y" "pw1" false).status ≠ 401 ∧
    (login (fun a b => a == b) (setVerified c5Users 1) "u@x.y" "pw1"
      false).status = 200 ∧
    (login (fun a b => a == b) (setVerified c5Users 1) "u@x.y" "pw1"
      false).tokenTtlDays ≠ none :=
  spec_C5_login_not_verified (fun a b => a == b) c5Users "u@x.y" "pw1"
    false ⟨1, "u@x.y", "555", "pw1", false⟩ (by decide) (by decide) rfl

/-- C6: a login with an unknown email and a login with a stored email
but a wrong password produce the same status and the same message. -/
theorem spec_C6_login_indistinguishable (compare : String → String → Bool)
    (users : List UserRow) (email1 pw1 : String) (rm1 : Bool)
    (email2 pw2 : String) (rm2 : Bool) (u : UserRow)
    (h1 : findByEmail users email1 = none)
    (h2 : findByEmail users email2 = some u)
    (h3 : compare pw2 u.password = false) :
    (login compare users email1 pw1 rm1).status =
      (login compare users email2 pw2 rm2).status ∧
    (login compare users email1 pw1 rm1).message =
      (login compare users email2 pw2 rm2).message := by
  simp [login, h1, h2, h3]

/-- Witness for C6: unknown email "no@x.y" versus stored email with the
wrong password "bad". -/
theorem spec_C6_login_indistinguishable_witness :
    (login (fun a b => a == b) c5Users "no@x.y" "pw1" false).status =
      (login (fun a b => a == b) c5Users "u@x.y" "bad" false).status ∧
    (login (fun a b => a == b) c5Users "no@x.y" "pw1" false).message =
      (login (fun a b => a == b) c5Users "u@x.y" "bad" false).message :=
  spec_C6_login_indistinguishable (fun a b => a == b) c5Users "no@x.y"
    "pw1" false "u@x.y" "bad" false ⟨1, "u@x.y", "555", "pw1", false⟩
    (by decide) (by decide) (by decide)

/-- C7 counterexample: for the unverified user 1 the guard responds with
HTTP status 403, so the status code does not differ from both 401 and
403 as claimed. -/
theorem spec_C7_counterexample :
    ¬ (guardHttpStatus (checkVerification (some ⟨1, "v@x.y"⟩) c7Users)
         ≠ some 401 ∧
       guardHttpStatus (checkVerification (some ⟨1, "v@x.y"⟩) c7Users)
         ≠ some 403) := by
  decide

/-- C7 amended: for every request passing the guard whose loaded user is
unverified, the guard responds with HTTP status 403 — the generic
Forbidden code, not one distinct from 401/403 — and the JSON body carries
the distinct marker `status: 203`, which differs from 401 and 403. -/
theorem spec_C7_guard_not_verified (reqUser : Option Identity)
    (users : List UserRow) (iu : Identity) (u : UserRow)
    (h1 : reqUser = some iu) (h2 : findById users iu.id = some u)
    (h3 : u.is_verified = false) :
    checkVerification reqUser users =
      GuardResult.respond 403 "Account not verified" (some 203) ∧
    (203 : Nat) ≠ 401 ∧ (203 : Nat) ≠ 403 := by
  refine ⟨?_, by decide, by decide⟩
  simp [checkVerification, h1, h2, h3]

/-- Witness for the amended C7 on the concrete one-user store. -/
theorem spec_C7_guard_not_verified_witness :
    checkVerification (some ⟨1, "v@x.y"⟩) c7Users =
      GuardResult.respond 403 "Account not verified" (some 203) ∧
    (203 : Nat) ≠ 401 ∧ (203 : Nat) ≠ 403 :=
  spec_C7_guard_not_verified (some ⟨1, "v@x.y"⟩) c7Users ⟨1, "v@x.y"⟩
    ⟨1, "v@x.y", "777", "hash7", false⟩ rfl (by decide) (by decide)

/-- C8 counterexample: user 1 exists and has no profile row, yet
`getUserProfile` answers 200 with an all-null profile projection instead
of the claimed NotFound. -/
theorem spec_C8_counterexample :
    getUserProfile (some ⟨1, "w@x.y"⟩) c8Users [] =
      GetProfileResult.ok ⟨1, "w@x.y", "888", true, emptyProfileProj⟩ ∧
    getProfileStatus (getUserProfile (some ⟨1, "w@x.y"⟩) c8Users [])
      ≠ 404 := by
  decide

/-- C8 amended: for an authenticated identity whose user row exists but
with no profile row, the profile get operation answers 200 with a
projection whose profile fields are all null; NotFound is produced only
when the user row itself is absent. -/
theorem spec_C8_profile_get_left_join (users : List UserRow)
    (profiles : List ProfileRow) (iu : Identity) (u : UserRow)
    (h1 : findById users iu.id = some u)
    (h2 : findProfileByUserId profiles iu.id = none) :
    getUserProfile (some iu) users profiles =
      GetProfileResult.ok
        ⟨u.id, u.email, u.phone, u.is_verified, emptyProfileProj⟩ ∧
    getProfileStatus (getUserProfile (some iu) users profiles) = 200 ∧
    (∀ iu2 : Identity, findById users iu2.id = none →
      getUserProfile (some iu2) users profiles =
        GetProfileResult.notFound) := by
  refine ⟨?_, ?_, fun iu2 hnone => ?_⟩
  · simp [getUserProfile, getCompleteUserProfile, h1, h2]
  · simp [getUserProfile, getCompleteUserProfile, h1, h2, getProfileStatus]
  · simp [getUserProfile, getCompleteUserProfile, hnone]

/-- Witness for the amended C8 on the concrete profile-less user. -/
theorem spec_C8_profile_get_left_join_witness :
    getUserProfile (some ⟨1, "w@x.y"⟩) c8Users [] =
      GetProfileResult.ok ⟨1, "w@x.y", "888", true, emptyProfileProj⟩ ∧
    getProfileStatus (getUserProfile (some ⟨1, "w@x.y"⟩) c8Users []) = 200 ∧
    (∀ iu2 : Identity, findById c8Users iu2.id = none →
      getUserProfile (some iu2) c8Users [] = GetProfileResult.notFound) :=
  spec_C8_profile_get_left_join c8Users [] ⟨1, "w@x.y"⟩
    ⟨1, "w@x.y", "888", "hash8", true⟩ (by decide) rfl

/-- Mapping a function that fixes every member of a list is the
identity. -/
theorem map_id_of_mem {α : Type} (f : α → α) (L : List α)
    (h : ∀ a ∈ L, f a = a) : L.map f = L := by
  induction L with
  | nil => rfl
  | cons a l ih =>
    simp only [List.map_cons]
    rw [h a (by simp), ih (fun x hx => h x (by simp [hx]))]

/-- C10: for an authenticated identity with no profile row, the
profile-picture update with a non-empty URL answers 200 even though the
UPDATE matches zero rows and the stored profiles are unchanged. -/
theorem spec_C10_picture_update_silent_noop (profiles : List ProfileRow)
    (iu : Identity) (url : String)
    (h : ∀ p ∈ profiles, p.user_id ≠ iu.id) (hurl : url ≠ "") :
    updateProfilePictureRoute (some iu) profiles (some url) =
      (200, profiles) := by
  have hmap : (profiles.map fun p =>
      if p.user_id = iu.id then { p with profile_picture_url := some url }
      else p) = profiles := by
    refine map_id_of_mem _ _ (fun p hp => ?_)
    simp [h p hp]
  simp [updateProfilePictureRoute, hurl, updateProfilePicture, hmap]

/-- Witness for C10: user 1 updates a picture while only user 2 has a
profile row; the call answers 200 and the store is unchanged. -/
theorem spec_C10_picture_update_silent_noop_witness :
    updateProfilePictureRoute (some ⟨1, "u@x.y"⟩) c10Profiles
      (some "http://pic") = (200, c10Profiles) :=
  spec_C10_picture_update_silent_noop c10Profiles ⟨1, "u@x.y"⟩
    "http://pic" (by decide) (by decide)

end CouponBackend
